import Mathlib

/-!
Shallow embedding of the Fishing Predictor domain logic (`lib.js`:
`bandForSpecies`, the five scoring components, `successScore`, and
`bestWindows`).

Modelling conventions:
* JS numbers are rationals (`ℚ`); a JS value that fails `Number.isFinite`
  (null, undefined, NaN, ±Infinity) is `Option.none`.
* JS strings are handled through their character lists; `toLowerCase` is
  `Char.toLower` mapped over the characters, and `String.prototype.includes`
  (and the substring-only regex tests of the source) is a list substring
  search.
* `Math.round` rounds half toward positive infinity, i.e. `⌊q + 1/2⌋`.
* Timestamps (milliseconds) are `ℤ`; an hourly record's `time` field is
  modelled directly by its epoch-millisecond value.
* A possibly-absent argument (`!species`, `!derived` guards) is an `Option`.
-/

namespace FishingPredictor

/-- `leadsList pat s` is true when `pat` is an initial run of `s`. -/
def leadsList (pat s : List Char) : Bool :=
  match pat, s with
  | [], _ => true
  | _ :: _, [] => false
  | a :: ps, b :: ss => a == b && leadsList ps ss

/-- `hasSub s pat` is true when `pat` occurs contiguously inside `s`
(the semantics of JS `s.includes(pat)` and of the alternation-free
regex tests in `bandForSpecies`). -/
def hasSub (s pat : List Char) : Bool :=
  match s with
  | [] => leadsList pat []
  | c :: t => leadsList pat (c :: t) || hasSub t pat

/-- JS `String(x).toLowerCase()` as a character list. -/
def lowerData (s : String) : List Char := s.data.map Char.toLower

/-- `clamp(v, lo, hi) = Math.min(hi, Math.max(lo, v))` from lib.js. -/
def clamp (v lo hi : ℚ) : ℚ := min hi (max lo v)

/-- JS `Math.round`: round half toward positive infinity. -/
def jsRound (q : ℚ) : ℤ := ⌊q + 1/2⌋

/-- `bandForSpecies` from lib.js: case-insensitive substring keyword match,
defaulting to `"warm"`. -/
def bandForSpecies (species : String) : String :=
  let s := lowerData species
  if hasSub s "trout".data || hasSub s "salmon".data || hasSub s "grayling".data ||
     hasSub s "whitefish".data || hasSub s "steelhead".data || hasSub s "kokanee".data ||
     hasSub s "lake trout".data then "cold"
  else if hasSub s "walleye".data || hasSub s "sauger".data || hasSub s "pike".data ||
     hasSub s "musk".data || hasSub s "pickerel".data then "cool"
  else "warm"

/-- One `{ ideal, low, high }` record of the `PREFS` table. -/
structure Prefs where
  ideal : ℚ
  low : ℚ
  high : ℚ

/-- The `PREFS` lookup table from lib.js (only ever applied to the three
strings `bandForSpecies` can produce). -/
def PREFS (band : String) : Prefs :=
  if band = "warm" then ⟨68, 55, 82⟩
  else if band = "cool" then ⟨62, 50, 75⟩
  else ⟨54, 40, 62⟩

/-- `tempComponent` from lib.js: triangular falloff around the band's ideal,
35–85 points, fixed 45 when the temperature is unknown. -/
def tempComponent (tempF : Option ℚ) (species : String) : ℚ :=
  match tempF with
  | none => 45
  | some t =>
    let band := PREFS (bandForSpecies species)
    let spread := if t ≤ band.ideal then band.ideal - band.low else band.high - band.ideal
    let d := |t - band.ideal|
    let pct := clamp (1 - d / max 8 spread) 0 1
    35 + pct * 50

/-- `windComponent` from lib.js: sweet spot 3 mph when the lowercased water
type contains `"river"`, otherwise 6 mph; fixed 10 when wind is unknown. -/
def windComponent (windMph : Option ℚ) (waterType : String) : ℚ :=
  match windMph with
  | none => 10
  | some w =>
    let t := lowerData waterType
    let sweet : ℚ := if hasSub t "river".data then 3 else 6
    let d := |w - sweet|
    let pct := clamp (1 - d / 10) 0 1
    pct * 10

/-- `cloudComponent` from lib.js: target 60% cloud for cold-band species,
40% otherwise; fixed 5 when cloud cover is unknown. -/
def cloudComponent (cloudPct : Option ℚ) (species : String) : ℚ :=
  match cloudPct with
  | none => 5
  | some c =>
    let target : ℚ := if bandForSpecies species = "cold" then 60 else 40
    let d := |c - target|
    let pct := clamp (1 - d / 50) 0 1
    pct * 8

/-- `pressureComponent` from lib.js: centered at 29.95 inHg, 0.35 window;
fixed 5 when pressure is unknown. -/
def pressureComponent (inHg : Option ℚ) : ℚ :=
  match inHg with
  | none => 5
  | some p =>
    let d := |p - 29.95|
    let pct := clamp (1 - d / 0.35) 0 1
    pct * 7

/-- `turbidityComponent` from lib.js: ideal 5 FNU / window 10 for cold-band
species, ideal 15 / window 25 otherwise; fixed 5 when turbidity is unknown. -/
def turbidityComponent (fnu : Option ℚ) (species : String) : ℚ :=
  match fnu with
  | none => 5
  | some f =>
    let isTrout := bandForSpecies species = "cold"
    let ideal : ℚ := if isTrout then 5 else 15
    let d := |f - ideal|
    let pct := clamp (1 - d / (if isTrout then 10 else 25)) 0 1
    pct * 5

/-- The `derived` conditions record consumed by `successScore`. -/
structure Derived where
  waterTempF : Option ℚ
  windMph : Option ℚ
  cloudPct : Option ℚ
  barometerInHg : Option ℚ
  turbidityFnu : Option ℚ

/-- `successScore` from lib.js.  The JS guard `if (!species || !derived)
return null` fires when `species` is null/undefined or the empty string,
or when `derived` is null/undefined. -/
def successScore (species : Option String) (waterType : String)
    (derived : Option Derived) : Option ℤ :=
  match species, derived with
  | some sp, some d =>
    if sp = "" then none
    else
      let t := tempComponent d.waterTempF sp
      let w := windComponent d.windMph waterType
      let c := cloudComponent d.cloudPct sp
      let p := pressureComponent d.barometerInHg
      let u := turbidityComponent d.turbidityFnu sp
      some (jsRound (clamp (t + w + c + p + u) 0 100))
  | _, _ => none

/-- The `{ sunriseTs, sunsetTs }` argument of `bestWindows` (nullable
epoch-millisecond timestamps). -/
structure SunEvents where
  sunriseTs : Option ℤ
  sunsetTs : Option ℤ

/-- One record of the `hourly` series (`time` in epoch ms; `windMph` and
`cloudPct` nullable, consumed through `??` defaults). -/
structure HourlyRecord where
  time : ℤ
  windMph : Option ℚ
  cloudPct : Option ℚ

/-- One output entry of `bestWindows`. -/
structure TimeWindow where
  time : ℤ
  score : ℤ

/-- The sunrise/sunset bonus inside `scoreHour`: `if (ts && |t - ts| ≤ 90
minutes) s += 8`.  A JS timestamp of `0` is falsy, hence the `x ≠ 0` guard. -/
def sunBonus (ts : Option ℤ) (t : ℤ) : ℚ :=
  match ts with
  | none => 0
  | some x => if x ≠ 0 ∧ |t - x| ≤ 90 * 60 * 1000 then 8 else 0

/-- `scoreHour` from `bestWindows` in lib.js: missing wind defaults to 5,
missing cloud to 50; wind term only when wind ≤ 10; cloud term 5 in [30,80]
else 2; two independent sun bonuses; result rounded and clamped to [0,100]. -/
def scoreHour (ev : SunEvents) (h : HourlyRecord) : ℤ :=
  let wind := h.windMph.getD 5
  let cloud := h.cloudPct.getD 50
  let s1 : ℚ := if wind ≤ 10 then 10 - |wind - 6| else 0
  let s2 : ℚ := if 30 ≤ cloud ∧ cloud ≤ 80 then 5 else 2
  let s := s1 + s2 + sunBonus ev.sunriseTs h.time + sunBonus ev.sunsetTs h.time
  jsRound (max 0 (min 100 s))

/-- Stable descending insertion: place `x` before the first element whose
score does not exceed it (ties keep the earlier, i.e. inserted, element
first — matching the stable JS `sort((a,b) => b.score - a.score)`). -/
def insertDesc (x : TimeWindow) : List TimeWindow → List TimeWindow
  | [] => [x]
  | y :: ys => if y.score ≤ x.score then x :: y :: ys else y :: insertDesc x ys

/-- The stable descending-by-score sort used by `bestWindows`. -/
def sortDesc : List TimeWindow → List TimeWindow
  | [] => []
  | x :: xs => insertDesc x (sortDesc xs)

/-- The pre-sort pipeline of `bestWindows`:
`hourly.slice(0,24).map(h => ({time, score})).filter(x => x.score >= 10)`. -/
def candidateWindows (ev : SunEvents) (hourly : List HourlyRecord) : List TimeWindow :=
  ((hourly.take 24).map (fun h => ⟨h.time, scoreHour ev h⟩)).filter
    (fun x => decide (10 ≤ x.score))

/-- `bestWindows` from lib.js. -/
def bestWindows (ev : SunEvents) (hourly : List HourlyRecord) : List TimeWindow :=
  if hourly.isEmpty then []
  else (sortDesc (candidateWindows ev hourly)).take 6

/-! ### Helper lemmas -/

lemma clamp_le_hi (v lo hi : ℚ) : clamp v lo hi ≤ hi := min_le_left _ _

lemma clamp_nonneg (v lo hi : ℚ) (hlo : 0 ≤ lo) (hhi : 0 ≤ hi) : 0 ≤ clamp v lo hi :=
  le_min hhi (le_trans hlo (le_max_left _ _))

lemma le_clamp_of_le (v lo hi a : ℚ) (h1 : a ≤ hi) (h2 : a ≤ v) : a ≤ clamp v lo hi :=
  le_min h1 (le_trans h2 (le_max_right _ _))

lemma clamp_mono (lo hi : ℚ) {a b : ℚ} (h : a ≤ b) : clamp a lo hi ≤ clamp b lo hi :=
  min_le_min le_rfl (max_le_max le_rfl h)

lemma jsRound_le {q : ℚ} {n : ℤ} (h : q ≤ (n : ℚ)) : jsRound q ≤ n := by
  unfold jsRound
  calc ⌊q + 1/2⌋ ≤ ⌊(n : ℚ) + 1/2⌋ := Int.floor_le_floor (by linarith)
    _ = n := by
        rw [add_comm, Int.floor_add_int]
        norm_num

lemma le_jsRound {q : ℚ} {n : ℤ} (h : (n : ℚ) ≤ q) : n ≤ jsRound q := by
  unfold jsRound
  exact Int.le_floor.mpr (by linarith)

lemma jsRound_eq_of (q : ℚ) (n : ℤ) (h1 : (n : ℚ) ≤ q + 1/2) (h2 : q + 1/2 < (n : ℚ) + 1) :
    jsRound q = n := by
  unfold jsRound
  rw [Int.floor_eq_iff]
  exact ⟨h1, by linarith⟩

lemma PREFS_warm : PREFS "warm" = ⟨68, 55, 82⟩ := rfl

lemma PREFS_cool : PREFS "cool" = ⟨62, 50, 75⟩ := rfl

lemma PREFS_cold : PREFS "cold" = ⟨54, 40, 62⟩ := rfl

lemma charOfNat_toNat (n : Nat) (h : Char.isValidCharNat n) : (Char.ofNat n).toNat = n := by
  unfold Char.ofNat
  rw [dif_pos h]
  simp [Char.ofNatAux, Char.toNat, UInt32.ofNat', UInt32.toNat, BitVec.toNat_ofNatLt]

lemma char_toLower_idem (c : Char) : c.toLower.toLower = c.toLower := by
  unfold Char.toLower
  by_cases h : c.toNat ≥ 65 ∧ c.toNat ≤ 90
  · rw [if_pos h]
    have hv : (Char.ofNat (c.toNat + 32)).toNat = c.toNat + 32 :=
      charOfNat_toNat _ (Or.inl (by omega))
    rw [if_neg (by rw [hv]; omega)]
  · rw [if_neg h, if_neg h]

lemma lowerData_idem (t : String) : lowerData ⟨lowerData t⟩ = lowerData t := by
  simp only [lowerData, List.map_map]
  exact List.map_congr_left (fun a _ => char_toLower_idem a)

lemma tempComponent_ge (t : Option ℚ) (s : String) : 35 ≤ tempComponent t s := by
  cases t with
  | none => norm_num [tempComponent]
  | some v =>
    simp only [tempComponent]
    have h := clamp_nonneg (1 - |v - (PREFS (bandForSpecies s)).ideal| /
      max 8 (if v ≤ (PREFS (bandForSpecies s)).ideal
        then (PREFS (bandForSpecies s)).ideal - (PREFS (bandForSpecies s)).low
        else (PREFS (bandForSpecies s)).high - (PREFS (bandForSpecies s)).ideal)) 0 1
      (le_refl 0) (by norm_num)
    nlinarith

lemma windComponent_nonneg (w : Option ℚ) (wt : String) : 0 ≤ windComponent w wt := by
  cases w with
  | none => norm_num [windComponent]
  | some v =>
    simp only [windComponent]
    have h := clamp_nonneg (1 - |v - if hasSub (lowerData wt) "river".data then 3 else 6| / 10)
      0 1 (le_refl 0) (by norm_num)
    nlinarith

lemma cloudComponent_nonneg (c : Option ℚ) (s : String) : 0 ≤ cloudComponent c s := by
  cases c with
  | none => norm_num [cloudComponent]
  | some v =>
    simp only [cloudComponent]
    have h := clamp_nonneg (1 - |v - if bandForSpecies s = "cold" then 60 else 40| / 50)
      0 1 (le_refl 0) (by norm_num)
    nlinarith

lemma pressureComponent_nonneg (p : Option ℚ) : 0 ≤ pressureComponent p := by
  cases p with
  | none => norm_num [pressureComponent]
  | some v =>
    simp only [pressureComponent]
    have h := clamp_nonneg (1 - |v - 29.95| / 0.35) 0 1 (le_refl 0) (by norm_num)
    nlinarith

lemma turbidityComponent_nonneg (f : Option ℚ) (s : String) : 0 ≤ turbidityComponent f s := by
  cases f with
  | none => norm_num [turbidityComponent]
  | some v =>
    simp only [turbidityComponent]
    have h := clamp_nonneg
      (1 - |v - if bandForSpecies s = "cold" then 5 else 15| /
        (if bandForSpecies s = "cold" then 10 else 25)) 0 1 (le_refl 0) (by norm_num)
    nlinarith

/-! ### Claim theorems -/

/-- Claim C3: when every field of the conditions object is unknown, the
sub-scores take their fixed defaults 45/10/5/5/5, and
`successScore("Largemouth Bass", "Lake", all-null) = 70`. -/
theorem successScore_all_unknown_defaults :
    tempComponent none "Largemouth Bass" = 45 ∧
    windComponent none "Lake" = 10 ∧
    cloudComponent none "Largemouth Bass" = 5 ∧
    pressureComponent none = 5 ∧
    turbidityComponent none "Largemouth Bass" = 5 ∧
    successScore (some "Largemouth Bass") "Lake"
      (some ⟨none, none, none, none, none⟩) = some 70 := by
  refine ⟨rfl, rfl, rfl, rfl, rfl, ?_⟩
  simp only [successScore, tempComponent, windComponent, cloudComponent,
    pressureComponent, turbidityComponent]
  rw [if_neg (by decide)]
  have hc : clamp (45 + 10 + 5 + 5 + 5 : ℚ) 0 100 = 70 := by
    unfold clamp
    norm_num
  rw [hc, jsRound_eq_of 70 70 (by norm_num) (by norm_num)]

/-- Claim C8: `bandForSpecies` is total into the three band strings, its
matching is case-insensitive and substring-based ("RAINBOW TROUT" and
"rainbow trout (wild)" both classify cold), and any non-matching input,
including the empty string and nonsense text, falls through to "warm". -/
theorem bandForSpecies_total (s : String) :
    (bandForSpecies s = "cold" ∨ bandForSpecies s = "cool" ∨ bandForSpecies s = "warm") ∧
    bandForSpecies ⟨lowerData s⟩ = bandForSpecies s ∧
    bandForSpecies "RAINBOW TROUT" = "cold" ∧
    bandForSpecies "rainbow trout (wild)" = "cold" ∧
    bandForSpecies "" = "warm" ∧
    bandForSpecies "plqzx 123 gibberish" = "warm" := by
  refine ⟨?_, ?_, by decide, by decide, by decide, by decide⟩
  · unfold bandForSpecies
    dsimp only
    split
    · exact Or.inl rfl
    · split
      · exact Or.inr (Or.inl rfl)
      · exact Or.inr (Or.inr rfl)
  · unfold bandForSpecies
    rw [lowerData_idem]

/-- Claim C4: every non-null result of `successScore` is an integer in
[0,100], and it is exactly `round(clamp(sum of the five components, 0, 100))`. -/
theorem successScore_bounded_formula (sp : Option String) (wt : String)
    (d : Option Derived) (n : ℤ) (h : successScore sp wt d = some n) :
    0 ≤ n ∧ n ≤ 100 ∧
    ∃ s dv, sp = some s ∧ d = some dv ∧
      n = jsRound (clamp (tempComponent dv.waterTempF s + windComponent dv.windMph wt +
        cloudComponent dv.cloudPct s + pressureComponent dv.barometerInHg +
        turbidityComponent dv.turbidityFnu s) 0 100) := by
  match sp, d with
  | none, _ => simp [successScore] at h
  | some s, none => simp [successScore] at h
  | some s, some dv =>
    simp only [successScore] at h
    by_cases hs : s = ""
    · rw [if_pos hs] at h
      exact absurd h (by simp)
    · rw [if_neg hs, Option.some.injEq] at h
      refine ⟨?_, ?_, s, dv, rfl, rfl, h.symm⟩
      · rw [← h]
        exact le_jsRound (by exact_mod_cast clamp_nonneg _ _ _ le_rfl (by norm_num))
      · rw [← h]
        exact jsRound_le (le_trans (clamp_le_hi _ _ _) (by norm_num))

/-- Claim C4 witness. -/
theorem successScore_bounded_formula_witness :
    0 ≤ (70 : ℤ) ∧ (70 : ℤ) ≤ 100 ∧
    ∃ s dv, (some "Rainbow Trout" : Option String) = some s ∧
      (some (⟨none, none, none, none, none⟩ : Derived) : Option Derived) = some dv ∧
      (70 : ℤ) = jsRound (clamp (tempComponent dv.waterTempF s +
        windComponent dv.windMph "Stream" + cloudComponent dv.cloudPct s +
        pressureComponent dv.barometerInHg + turbidityComponent dv.turbidityFnu s) 0 100) :=
  successScore_bounded_formula (some "Rainbow Trout") "Stream"
    (some ⟨none, none, none, none, none⟩) 70 (by
      simp only [successScore, tempComponent, windComponent, cloudComponent,
        pressureComponent, turbidityComponent]
      rw [if_neg (by decide)]
      have hc : clamp (45 + 10 + 5 + 5 + 5 : ℚ) 0 100 = 70 := by
        unfold clamp
        norm_num
      rw [hc, jsRound_eq_of 70 70 (by norm_num) (by norm_num)])

/-- Claim C9: every non-null result of `successScore` is at least 35 (the
temperature component is bounded below by 35 and the other components are
non-negative), so a score of 0 is unreachable. -/
theorem successScore_ge_35 (sp : Option String) (wt : String)
    (d : Option Derived) (n : ℤ) (h : successScore sp wt d = some n) :
    35 ≤ n ∧ n ≠ 0 := by
  have hmain : 35 ≤ n := by
    match sp, d with
    | none, _ => simp [successScore] at h
    | some s, none => simp [successScore] at h
    | some s, some dv =>
      simp only [successScore] at h
      by_cases hs : s = ""
      · rw [if_pos hs] at h
        exact absurd h (by simp)
      · rw [if_neg hs, Option.some.injEq] at h
        rw [← h]
        have h1 := tempComponent_ge dv.waterTempF s
        have h2 := windComponent_nonneg dv.windMph wt
        have h3 := cloudComponent_nonneg dv.cloudPct s
        have h4 := pressureComponent_nonneg dv.barometerInHg
        have h5 := turbidityComponent_nonneg dv.turbidityFnu s
        refine le_jsRound ?_
        push_cast
        exact le_clamp_of_le _ _ _ _ (by norm_num) (by linarith)
  exact ⟨hmain, by omega⟩

/-- Claim C9 witness. -/
theorem successScore_ge_35_witness : 35 ≤ (70 : ℤ) ∧ (70 : ℤ) ≠ 0 :=
  successScore_ge_35 (some "Northern Pike") "Lake"
    (some ⟨none, none, none, none, none⟩) 70 (by
      simp only [successScore, tempComponent, windComponent, cloudComponent,
        pressureComponent, turbidityComponent]
      rw [if_neg (by decide)]
      have hc : clamp (45 + 10 + 5 + 5 + 5 : ℚ) 0 100 = 70 := by
        unfold clamp
        norm_num
      rw [hc, jsRound_eq_of 70 70 (by norm_num) (by norm_num)])

/-- Claim C5: moving the water temperature away from the species band's
ideal, on the same side of it, never increases the temperature component. -/
theorem tempComponent_monotone (s : String) (t1 t2 : ℚ)
    (hside : t1 ≤ (PREFS (bandForSpecies s)).ideal ↔ t2 ≤ (PREFS (bandForSpecies s)).ideal)
    (hd : |t1 - (PREFS (bandForSpecies s)).ideal| ≤ |t2 - (PREFS (bandForSpecies s)).ideal|) :
    tempComponent (some t2) s ≤ tempComponent (some t1) s := by
  simp only [tempComponent]
  set pr := PREFS (bandForSpecies s) with hpr
  have hspread : (if t2 ≤ pr.ideal then pr.ideal - pr.low else pr.high - pr.ideal) =
      (if t1 ≤ pr.ideal then pr.ideal - pr.low else pr.high - pr.ideal) := by
    by_cases h1 : t1 ≤ pr.ideal
    · rw [if_pos h1, if_pos (hside.mp h1)]
    · rw [if_neg h1, if_neg (fun h2 => h1 (hside.mpr h2))]
  rw [hspread]
  set m := max 8 (if t1 ≤ pr.ideal then pr.ideal - pr.low else pr.high - pr.ideal) with hm
  have hmpos : 0 < m := lt_of_lt_of_le (by norm_num) (le_max_left _ _)
  have hdiv : |t1 - pr.ideal| / m ≤ |t2 - pr.ideal| / m := by gcongr
  have hclamp : clamp (1 - |t2 - pr.ideal| / m) 0 1 ≤ clamp (1 - |t1 - pr.ideal| / m) 0 1 :=
    clamp_mono _ _ (by linarith)
  nlinarith

/-- Claim C5 witness: for Largemouth Bass (warm band, ideal 68 °F), 75 °F is
farther above ideal than 70 °F, and scores no higher. -/
theorem tempComponent_monotone_witness :
    tempComponent (some 75) "Largemouth Bass" ≤ tempComponent (some 70) "Largemouth Bass" := by
  have hb : bandForSpecies "Largemouth Bass" = "warm" := by decide
  apply tempComponent_monotone "Largemouth Bass" 70 75
  · rw [hb, PREFS_warm]
    show (70 : ℚ) ≤ 68 ↔ (75 : ℚ) ≤ 68
    norm_num
  · rw [hb, PREFS_warm]
    show |(70 : ℚ) - 68| ≤ |(75 : ℚ) - 68|
    rw [show (70 : ℚ) - 68 = 2 by norm_num, show (75 : ℚ) - 68 = 7 by norm_num,
      abs_of_nonneg (by norm_num : (0 : ℚ) ≤ 2), abs_of_nonneg (by norm_num : (0 : ℚ) ≤ 7)]
    norm_num

lemma clamp_unit_formula (d : ℚ) (hd : 0 ≤ d) (wnd : ℚ) (hw : 0 < wnd) (hle : d ≤ wnd) :
    clamp (1 - d / wnd) 0 1 = 1 - d / wnd := by
  unfold clamp
  have h1 : 0 ≤ 1 - d / wnd := by
    have := (div_le_one hw).mpr hle
    linarith
  have h2 : 1 - d / wnd ≤ 1 := by
    have := div_nonneg hd (le_of_lt hw)
    linarith
  rw [max_eq_right h1, min_eq_right h2]

lemma clamp_unit_zero (d : ℚ) (wnd : ℚ) (hw : 0 < wnd) (hge : wnd ≤ d) :
    clamp (1 - d / wnd) 0 1 = 0 := by
  unfold clamp
  have h1 : 1 - d / wnd ≤ 0 := by
    have := (one_le_div hw).mpr hge
    linarith
  rw [max_eq_left h1, min_eq_right (by norm_num : (0 : ℚ) ≤ 1)]

/-- Claim C1 counterexample: for the water type "Stream" (which contains
"stream" but not "river") at 3 mph — the claimed river-like sweet spot —
the code's wind component is 7, not the claimed maximum 10, because the
source tests only for the substring "river". -/
theorem windComponent_stream_counterexample :
    hasSub (lowerData "Stream") "stream".data = true ∧
    hasSub (lowerData "Stream") "river".data = false ∧
    windComponent (some 3) "Stream" = 7 ∧ (7 : ℚ) ≠ 10 := by
  refine ⟨by decide, by decide, ?_, by norm_num⟩
  simp only [windComponent]
  rw [if_neg (by decide)]
  rw [show |(3 : ℚ) - 6| = 3 by
    rw [show (3 : ℚ) - 6 = -3 by norm_num, abs_neg, abs_of_nonneg (by norm_num : (0 : ℚ) ≤ 3)]]
  rw [clamp_unit_formula 3 (by norm_num) 10 (by norm_num) (by norm_num)]
  norm_num

/-- Claim C1 (amended): the wind component uses a 3 mph sweet spot exactly
when the lowercased water type contains "river" (a type containing only
"stream" gets the 6 mph sweet spot), decaying linearly to 0 at a 10 mph
distance and scaled to 10 points; unknown wind returns the fixed maximum 10. -/
theorem windComponent_river_only (wt : String) (w : ℚ) :
    windComponent none wt = 10 ∧
    (hasSub (lowerData wt) "river".data = true →
      ((|w - 3| ≤ 10 → windComponent (some w) wt = 10 - |w - 3|) ∧
       (10 ≤ |w - 3| → windComponent (some w) wt = 0))) ∧
    (hasSub (lowerData wt) "river".data = false →
      ((|w - 6| ≤ 10 → windComponent (some w) wt = 10 - |w - 6|) ∧
       (10 ≤ |w - 6| → windComponent (some w) wt = 0))) := by
  refine ⟨rfl, fun hr => ⟨fun hle => ?_, fun hge => ?_⟩, fun hr => ⟨fun hle => ?_, fun hge => ?_⟩⟩ <;>
    simp only [windComponent]
  · rw [if_pos hr, clamp_unit_formula _ (abs_nonneg _) 10 (by norm_num) hle]
    ring
  · rw [if_pos hr, clamp_unit_zero _ 10 (by norm_num) hge]
    ring
  · rw [if_neg (by simp [hr]), clamp_unit_formula _ (abs_nonneg _) 10 (by norm_num) hle]
    ring
  · rw [if_neg (by simp [hr]), clamp_unit_zero _ 10 (by norm_num) hge]
    ring

/-- Claim C1 witness: "Stream" is not river-like for the code, so at 3 mph
the component is `10 - |3 - 6| = 7`. -/
theorem windComponent_river_only_witness :
    windComponent (some 3) "Stream" = 10 - |(3 : ℚ) - 6| :=
  ((windComponent_river_only "Stream" 3).2.2 (by decide)).1 (by
    rw [show (3 : ℚ) - 6 = -3 by norm_num, abs_neg, abs_of_nonneg (by norm_num : (0 : ℚ) ≤ 3)]
    norm_num)

/-- Claim C2 counterexample: an empty (present, but falsy) species string
also yields `null`, so "null iff species or conditions absent" fails as an
"only if". -/
theorem successScore_empty_species_counterexample :
    successScore (some "") "Lake" (some ⟨none, none, none, none, none⟩) = none ∧
    (some "" : Option String) ≠ none ∧
    (some (⟨none, none, none, none, none⟩ : Derived) : Option Derived) ≠ none := by
  exact ⟨rfl, by simp, by simp⟩

/-- Claim C2 (amended): `successScore` returns null exactly when the species
argument is absent or the empty string, or the conditions object is absent;
a present conditions object whose fields are all unknown (with a nonempty
species) still yields a non-null score. -/
theorem successScore_null_iff (sp : Option String) (wt : String) (d : Option Derived) :
    (successScore sp wt d = none ↔ sp = none ∨ sp = some "" ∨ d = none) ∧
    (∀ s dv, s ≠ "" → ∃ n, successScore (some s) wt (some dv) = some n) := by
  constructor
  · match sp, d with
    | none, _ => simp [successScore]
    | some s, none => simp [successScore]
    | some s, some dv =>
      simp only [successScore]
      by_cases hs : s = ""
      · subst hs
        simp
      · rw [if_neg hs]
        simp [hs]
  · intro s dv hs
    have hval : successScore (some s) wt (some dv) =
        some (jsRound (clamp (tempComponent dv.waterTempF s + windComponent dv.windMph wt +
          cloudComponent dv.cloudPct s + pressureComponent dv.barometerInHg +
          turbidityComponent dv.turbidityFnu s) 0 100)) := by
      simp only [successScore]
      rw [if_neg hs]
    exact ⟨_, hval⟩

/-- Claim C2 witness: a fully-unknown conditions object with a nonempty
species still gets a score. -/
theorem successScore_null_iff_witness :
    ∃ n, successScore (some "Walleye") "River" (some ⟨none, none, none, none, none⟩) = some n :=
  (successScore_null_iff (some "Walleye") "River"
    (some ⟨none, none, none, none, none⟩)).2 "Walleye" ⟨none, none, none, none, none⟩ (by decide)

lemma mem_insertDesc {a x : TimeWindow} {l : List TimeWindow} :
    a ∈ insertDesc x l ↔ a = x ∨ a ∈ l := by
  induction l with
  | nil => simp [insertDesc]
  | cons y ys ih =>
    by_cases h : y.score ≤ x.score
    · simp [insertDesc, h]
    · simp only [insertDesc, if_neg h, List.mem_cons, ih]
      tauto

lemma mem_sortDesc {a : TimeWindow} {l : List TimeWindow} : a ∈ sortDesc l ↔ a ∈ l := by
  induction l with
  | nil => simp [sortDesc]
  | cons x xs ih => simp [sortDesc, mem_insertDesc, ih]

lemma pairwise_insertDesc {x : TimeWindow} {l : List TimeWindow}
    (hl : l.Pairwise (fun a b => b.score ≤ a.score)) :
    (insertDesc x l).Pairwise (fun a b => b.score ≤ a.score) := by
  induction l with
  | nil => simp [insertDesc]
  | cons y ys ih =>
    rw [List.pairwise_cons] at hl
    by_cases h : y.score ≤ x.score
    · simp only [insertDesc, if_pos h]
      rw [List.pairwise_cons]
      constructor
      · intro z hz
        rcases List.mem_cons.mp hz with rfl | hz2
        · exact h
        · exact le_trans (hl.1 z hz2) h
      · exact List.pairwise_cons.mpr hl
    · simp only [insertDesc, if_neg h]
      rw [List.pairwise_cons]
      refine ⟨?_, ih hl.2⟩
      intro z hz
      rcases mem_insertDesc.mp hz with rfl | hz2
      · exact le_of_not_le h
      · exact hl.1 z hz2

lemma pairwise_sortDesc (l : List TimeWindow) :
    (sortDesc l).Pairwise (fun a b => b.score ≤ a.score) := by
  induction l with
  | nil => simp [sortDesc]
  | cons x xs ih =>
    simp only [sortDesc]
    exact pairwise_insertDesc ih

lemma filter_insertDesc (v : ℤ) (x : TimeWindow) (l : List TimeWindow) :
    (insertDesc x l).filter (fun w => decide (w.score = v)) =
      if x.score = v then x :: l.filter (fun w => decide (w.score = v))
      else l.filter (fun w => decide (w.score = v)) := by
  induction l with
  | nil =>
    by_cases hx : x.score = v <;> simp [insertDesc, List.filter, hx]
  | cons y ys ih =>
    by_cases hxy : y.score ≤ x.score
    · simp only [insertDesc, if_pos hxy]
      by_cases hx : x.score = v <;> by_cases hy : y.score = v <;>
        simp [List.filter_cons, hx, hy]
    · simp only [insertDesc, if_neg hxy]
      by_cases hy : y.score = v
      · have hx : ¬ x.score = v := fun hx => hxy (le_of_eq (hy.trans hx.symm))
        simp [List.filter_cons, hy, hx, ih]
      · by_cases hx : x.score = v <;> simp [List.filter_cons, hy, hx, ih]

lemma filter_sortDesc (v : ℤ) (l : List TimeWindow) :
    (sortDesc l).filter (fun w => decide (w.score = v)) =
      l.filter (fun w => decide (w.score = v)) := by
  induction l with
  | nil => rfl
  | cons x xs ih =>
    simp only [sortDesc]
    rw [filter_insertDesc]
    by_cases hx : x.score = v <;> simp [List.filter_cons, hx, ih]

/-- Claim C6: `bestWindows` returns the empty sequence on an empty hourly
series, never more than 6 entries, every returned entry scores at least 10,
and only the first 24 hourly records matter. -/
theorem bestWindows_bounds (ev : SunEvents) (hourly : List HourlyRecord) :
    bestWindows ev [] = [] ∧
    (bestWindows ev hourly).length ≤ 6 ∧
    (bestWindows ev hourly).all (fun x => decide (10 ≤ x.score)) = true ∧
    bestWindows ev hourly = bestWindows ev (hourly.take 24) := by
  refine ⟨rfl, ?_, ?_, ?_⟩
  · unfold bestWindows
    by_cases he : hourly.isEmpty
    · rw [if_pos he]
      simp
    · rw [if_neg he, List.length_take]
      exact min_le_left _ _
  · rw [List.all_eq_true]
    intro x hx
    unfold bestWindows at hx
    by_cases he : hourly.isEmpty
    · rw [if_pos he] at hx
      simp at hx
    · rw [if_neg he] at hx
      have hx1 : x ∈ sortDesc (candidateWindows ev hourly) := List.mem_of_mem_take hx
      have hx2 : x ∈ candidateWindows ev hourly := mem_sortDesc.mp hx1
      exact (List.mem_filter.mp hx2).2
  · have hc : candidateWindows ev (hourly.take 24) = candidateWindows ev hourly := by
      unfold candidateWindows
      rw [List.take_take]
      norm_num
    cases hourly with
    | nil => rfl
    | cons h t =>
      unfold bestWindows
      rw [hc, if_neg (by simp), if_neg (by simp [List.take_cons])]

/-- Claim C7: `bestWindows` output is ordered by non-increasing score, the
sort preserves the original (input-order) arrangement of equal-score
candidates, and the returned entries of any given score are an initial run
of the equal-score candidates in input order. -/
theorem bestWindows_sorted_stable (ev : SunEvents) (hourly : List HourlyRecord) (v : ℤ) :
    (bestWindows ev hourly).Pairwise (fun a b => b.score ≤ a.score) ∧
    (sortDesc (candidateWindows ev hourly)).filter (fun w => decide (w.score = v)) =
      (candidateWindows ev hourly).filter (fun w => decide (w.score = v)) ∧
    ∃ rest, (candidateWindows ev hourly).filter (fun w => decide (w.score = v)) =
      (bestWindows ev hourly).filter (fun w => decide (w.score = v)) ++ rest := by
  refine ⟨?_, filter_sortDesc v _, ?_⟩
  · unfold bestWindows
    by_cases he : hourly.isEmpty
    · rw [if_pos he]
      exact List.Pairwise.nil
    · rw [if_neg he]
      exact List.Pairwise.sublist (List.take_sublist _ _) (pairwise_sortDesc _)
  · cases hourly with
    | nil =>
      refine ⟨[], ?_⟩
      simp [candidateWindows, bestWindows]
    | cons h t =>
      have hb : bestWindows ev (h :: t) = (sortDesc (candidateWindows ev (h :: t))).take 6 := by
        unfold bestWindows
        rw [if_neg (by simp)]
      rw [hb]
      refine ⟨(List.drop 6 (sortDesc (candidateWindows ev (h :: t)))).filter
        (fun w => decide (w.score = v)), ?_⟩
      rw [← List.filter_append, List.take_append_drop]
      exact (filter_sortDesc v _).symm

/-- Claim C10: inside `bestWindows`, a missing `windMph` is scored as 5 mph
and a missing `cloudPct` as 50 %, and an hour with both missing and no
sunrise/sunset bonus scores exactly 14, which passes the ≥ 10 filter. -/
theorem scoreHour_defaults :
    (∀ ev h, h.windMph = none → scoreHour ev h = scoreHour ev { h with windMph := some 5 }) ∧
    (∀ ev h, h.cloudPct = none → scoreHour ev h = scoreHour ev { h with cloudPct := some 50 }) ∧
    (∀ ev h, h.windMph = none → h.cloudPct = none →
      sunBonus ev.sunriseTs h.time = 0 → sunBonus ev.sunsetTs h.time = 0 →
      scoreHour ev h = 14 ∧ 10 ≤ scoreHour ev h) := by
  refine ⟨?_, ?_, ?_⟩
  · intro ev h hw
    simp [scoreHour, hw]
  · intro ev h hc
    simp [scoreHour, hc]
  · intro ev h hw hc hb1 hb2
    have hval : scoreHour ev h = 14 := by
      simp only [scoreHour, hw, hc, hb1, hb2, Option.getD]
      rw [if_pos (by norm_num : (5 : ℚ) ≤ 10),
        if_pos (by norm_num : (30 : ℚ) ≤ 50 ∧ (50 : ℚ) ≤ 80)]
      rw [show |(5 : ℚ) - 6| = 1 by
        rw [show (5 : ℚ) - 6 = -1 by norm_num, abs_neg,
          abs_of_nonneg (by norm_num : (0 : ℚ) ≤ 1)]]
      rw [show (10 : ℚ) - 1 + 5 + 0 + 0 = 14 by norm_num,
        min_eq_right (by norm_num : (14 : ℚ) ≤ 100),
        max_eq_right (by norm_num : (0 : ℚ) ≤ 14)]
      exact jsRound_eq_of 14 14 (by norm_num) (by norm_num)
    rw [hval]
    exact ⟨rfl, by norm_num⟩

/-- Claim C10 witness: the all-missing hour with no sun events scores 14. -/
theorem scoreHour_defaults_witness :
    scoreHour ⟨none, none⟩ ⟨0, none, none⟩ = 14 ∧
    10 ≤ scoreHour ⟨none, none⟩ ⟨0, none, none⟩ :=
  scoreHour_defaults.2.2 ⟨none, none⟩ ⟨0, none, none⟩ rfl rfl rfl rfl

end FishingPredictor
